import Mathlib

/-!
Shallow embedding of `gns3server/utils/asyncio/embed_shell.py`.

The Python module defines an `EmbedShell` class (command shell engine), an
`UnstopableEventLoop` facade over the host event loop, a `StreamWriter`
output adapter that rewrites newlines for the telnet transport, and a demo
subclass `Demo` adding a `hello` command.  The definitions below translate
those pieces into executable Lean functions; theorems about the claims of
the specification follow after the definitions.
-/

namespace EmbedShellModel

/-- One entry of `inspect.getmembers(self)` for a shell object: the attribute
name, whether `inspect.isgeneratorfunction` is true for its value (i.e. the
value is an `@asyncio.coroutine`-decorated generator function, the only kind
of member `help` and `get_commands` treat as a command), and the cleaned
docstring `inspect.getdoc` returns for it (`none` when there is no
docstring, as for plain attribute values). -/
structure Member where
  name : String
  isGenFun : Bool
  doc : Option String
deriving DecidableEq

/-- Python `str.split(sep)` for a one-character separator `sep`, on the
character list of the string: splitting the empty string yields `[[]]`
(one empty field), exactly as `''.split(' ') == ['']` in Python. -/
def splitChar (sep : Char) : List Char → List (List Char)
  | [] => [[]]
  | c :: cs =>
    match splitChar sep cs with
    | [] => [[]]
    | t :: ts => if c = sep then [] :: t :: ts else (c :: t) :: ts

/-- `text.split(' ')` from `EmbedShell._parse_command` (embed_shell.py:96). -/
def pySplit (s : String) : List String :=
  (splitChar ' ' s.data).map (fun cs => String.mk cs)

/-- `doc.split('\n')[0]` from `EmbedShell.help` (embed_shell.py:88): the first
line of a docstring. -/
def firstLine (s : String) : String :=
  match splitChar '\n' s.data with
  | [] => ""
  | l :: _ => String.mk l

/-- `name.startswith('_')` from `EmbedShell.help` / `get_commands`
(embed_shell.py:81,130). -/
def startsWithUnderscore (s : String) : Bool :=
  match s.data with
  | [] => false
  | c :: _ => c = '_'

/-- The filter of `EmbedShell.help` (embed_shell.py:78-81): a member is kept
iff it is a generator function, its name does not start with `_`, the name
equals `args[0]` when arguments were given, and the name is not `run`. -/
def helpKeeps (args : List String) (m : Member) : Bool :=
  m.isGenFun && !(startsWithUnderscore m.name) &&
    (match args with
     | [] => true
     | a :: _ => m.name == a) &&
    (m.name != "run")

/-- The line `EmbedShell.help` emits for one kept member
(embed_shell.py:83-89): the name, then `: fullDoc` when an argument was
given and the member has a docstring, else `: firstDocLine` when it has a
docstring, then a newline. -/
def helpLine (args : List String) (m : Member) : String :=
  m.name ++
    (match m.doc with
     | none => ""
     | some d =>
       match args with
       | [] => ": " ++ firstLine d
       | _ :: _ => ": " ++ d) ++
    "\n"

/-- `EmbedShell.help` (embed_shell.py:70-92), as a function of the member
table `inspect.getmembers(self)` returns (`ms`) and of the argument list:
`Help:\n` header when no arguments; one line per kept member; trailer when
no arguments. -/
def help (ms : List Member) (args : List String) : String :=
  (if args.isEmpty then "Help:\n" else "") ++
    String.join ((ms.filter (helpKeeps args)).map (helpLine args)) ++
    (if args.isEmpty then "\nhelp command for details about a command\n" else "")

/-- `EmbedShell.get_commands` (embed_shell.py:121-134): the `(name, doc)`
pairs of members that are generator functions, are not underscore-prefixed
and are not named `run`. -/
def get_commands (ms : List Member) : List (String × Option String) :=
  (ms.filter (fun m =>
    m.isGenFun && !(startsWithUnderscore m.name) && (m.name != "run"))).map
    (fun m => (m.name, m.doc))

/-- `Demo.hello` (embed_shell.py:277-287): with arguments, return
`' '.join(args)` (note: no trailing newline in the source); with no
arguments, return `world` followed by a newline. -/
def hello (args : List String) : String :=
  if args.isEmpty then "world\n" else " ".intercalate args

/-- Outcome of one dispatched command for the shell model. -/
inductive DResult where
  /-- The coroutine returned this response text. -/
  | ok (s : String)
  /-- A Python exception propagates out of `_parse_command` (calling a
  non-callable member value, calling with a wrong arity, or `yield from`
  applied to something that is not a coroutine). -/
  | raises
  /-- The call suspends and never returns a response: dispatching `run`
  re-enters the read loop, which loops forever. -/
  | blocks
  /-- Artifact of the fuelled model only: recursion fuel ran out. -/
  | fuelOut
deriving DecidableEq

/-- `EmbedShell._parse_command` (embed_shell.py:94-108) for the `Demo`
shell, with explicit recursion fuel (the only recursion is the member
`_parse_command` dispatching its single argument).  The line is split on
single spaces; `?` in the first token is replaced by `help`; the first
member of the `inspect.getmembers` table whose name equals the first token
is called with the remaining tokens; when no member matches, the response
is `Command not found ` plus the token plus the zero-argument help text.
The branches on the matched name reflect what calling that member of a
`Demo` instance does: `hello` and `help` are the command coroutines;
`run` with no arguments re-enters the read loop and never returns (with
arguments it raises a `TypeError`); `_parse_command` with one argument
recursively dispatches it (other arities raise); every other member of a
`Demo` instance is not a coroutine function, so calling it — or yielding
from its result — raises. -/
def dispatchFuel : Nat → List Member → String → DResult
  | 0, _, _ => DResult.fuelOut
  | Nat.succ n, ms, text =>
    match pySplit text with
    | [] => DResult.raises
    | c :: args0 =>
      let c0 := if c = "?" then "help" else c
      match ms.find? (fun m => m.name == c0) with
      | none => DResult.ok ("Command not found " ++ c0 ++ help ms [])
      | some m =>
        if m.name = "hello" then DResult.ok (hello args0)
        else if m.name = "help" then DResult.ok (help ms args0)
        else if m.name = "run" then
          (if args0.isEmpty then DResult.blocks else DResult.raises)
        else if m.name = "_parse_command" then
          match args0 with
          | [t] => dispatchFuel n ms t
          | _ => DResult.raises
        else DResult.raises

/-- `EmbedShell._parse_command` with enough fuel for any input: each
recursive step passes one token of the split text, which is strictly
shorter than the text, so `text.length + 1` steps always suffice. -/
def parse_command (ms : List Member) (text : String) : DResult :=
  dispatchFuel (text.length + 1) ms text

/-- A member that is not a command: an attribute value, property value or
plain method.  `isGenFun` is false and its docstring is irrelevant to every
modelled operation (both `help` and `get_commands` test `isGenFun` first),
so it is recorded as `none`. -/
def plainMember (n : String) : Member :=
  { name := n, isGenFun := false, doc := none }

/-- The member table of a `Demo` instance (embed_shell.py:275-287), exactly
as `inspect.getmembers` returns it: sorted by attribute name.  The special
members inherited from `object` come first, then the instance attributes
set by `EmbedShell.__init__` (`_loop`, `_prompt`, `_reader`,
`_welcome_message`, `_writer`), the methods `_parse_command`, `run`,
`get_commands`, the commands `hello` and `help`, and the property values
`prompt`, `reader`, `writer`.  The generator functions are exactly
`_parse_command`, `hello`, `help` and `run`; their docstrings are the
`inspect.getdoc`-cleaned docstrings from the source (`_parse_command` and
`run` have none). -/
def demoMembers : List Member :=
  [plainMember "__class__", plainMember "__delattr__", plainMember "__dict__",
   plainMember "__dir__", plainMember "__doc__", plainMember "__eq__",
   plainMember "__format__", plainMember "__ge__",
   plainMember "__getattribute__", plainMember "__gt__",
   plainMember "__hash__", plainMember "__init__",
   plainMember "__init_subclass__", plainMember "__le__",
   plainMember "__lt__", plainMember "__module__", plainMember "__ne__",
   plainMember "__new__", plainMember "__reduce__",
   plainMember "__reduce_ex__", plainMember "__repr__",
   plainMember "__setattr__", plainMember "__sizeof__",
   plainMember "__str__", plainMember "__subclasshook__",
   plainMember "__weakref__",
   plainMember "_loop",
   { name := "_parse_command", isGenFun := true, doc := none },
   plainMember "_prompt", plainMember "_reader",
   plainMember "_welcome_message", plainMember "_writer",
   { name := "get_commands", isGenFun := false,
     doc := some "Returns commands available to execute\n:return: list of (name, doc) tuples" },
   { name := "hello", isGenFun := true,
     doc := some "Hello world\n\nThis command accept arguments: hello tutu will display tutu" },
   { name := "help", isGenFun := true, doc := some "Show help" },
   plainMember "prompt", plainMember "reader",
   { name := "run", isGenFun := true, doc := none },
   plainMember "writer"]

/-- The prompt text set by `EmbedShell.__init__` (embed_shell.py:43). -/
def promptText : String := "> "

/-- `result.decode().strip('\n')` from `EmbedShell.run` (embed_shell.py:117):
Python `strip` removes the given character from both ends. -/
def pyStripNL (s : String) : String :=
  String.mk
    (((s.data.dropWhile (fun c => c = '\n')).reverse.dropWhile
      (fun c => c = '\n')).reverse)

/-- Modelled from asyncio `StreamReader.readline` semantics for the shell's
input endpoint: the pending completed lines are a list, `readline` returns
the next one, and once the stream is at end-of-stream (no pending line) it
returns the empty string — it does not raise. -/
def readline : List String → String × List String
  | [] => ("", [])
  | l :: ls => (l, ls)

/-- Observable outcome of running the `EmbedShell.run` loop for a bounded
number of iterations: the strings passed to `writer.feed_data`, in order. -/
inductive RunOutcome where
  /-- The loop exited normally.  No statement in `EmbedShell.run`
  (embed_shell.py:110-119) produces this outcome: the `while True` loop has
  no `break` or `return`. -/
  | completed (out : List String)
  /-- The iteration budget of the model was exhausted with the loop still
  running. -/
  | outOfFuel (out : List String) (pending : List String)
  /-- A dispatched command did not return a response (it raised, or it
  suspended forever), aborting the loop abnormally. -/
  | aborted (out : List String) (r : DResult)
deriving DecidableEq

/-- Prefix some already-written output onto a loop outcome. -/
def prependOut (xs : List String) : RunOutcome → RunOutcome
  | RunOutcome.completed ys => RunOutcome.completed (xs ++ ys)
  | RunOutcome.outOfFuel ys rest => RunOutcome.outOfFuel (xs ++ ys) rest
  | RunOutcome.aborted ys r => RunOutcome.aborted (xs ++ ys) r

/-- The `while True` loop of `EmbedShell.run` (embed_shell.py:114-119),
with an explicit iteration budget: write the prompt, read one line, strip
its newlines, dispatch it, write the response, repeat.  The loop itself
never terminates; the model stops only when the budget runs out or a
dispatch fails to return. -/
def runLoop (ms : List Member) : Nat → List String → RunOutcome
  | 0, pending => RunOutcome.outOfFuel [] pending
  | Nat.succ n, pending =>
    let r := readline pending
    match parse_command ms (pyStripNL r.1) with
    | DResult.ok res => prependOut [promptText, res] (runLoop ms n r.2)
    | other => RunOutcome.aborted [promptText] other

/-- `EmbedShell.run` (embed_shell.py:110-119): write the welcome message
once when it is set, then enter the read loop. -/
def run (ms : List Member) (welcome : Option String) (fuel : Nat)
    (pending : List String) : RunOutcome :=
  match welcome with
  | some w => prependOut [w] (runLoop ms fuel pending)
  | none => runLoop ms fuel pending

/-- The response `_parse_command` produces for the empty line the loop
dispatches at end-of-stream. -/
def notFoundEmpty : String := "Command not found " ++ help demoMembers []

/-- The character rewriting of `StreamWriter.feed_data`
(embed_shell.py:200-202): `data.decode().replace("\n", "\r\n")` — every
occurrence of the one-character pattern `\n`, scanned left to right, is
replaced by `\r\n`; every other character is kept in place. -/
def replaceLFwithCRLF : List Char → List Char
  | [] => []
  | c :: cs =>
    if c = '\n' then '\r' :: '\n' :: replaceLFwithCRLF cs
    else c :: replaceLFwithCRLF cs

/-- What one `\n` is rewritten to, and what any other character stays as:
the per-character expansion of `replace("\n", "\r\n")`. -/
def expandLF (c : Char) : List Char :=
  if c = '\n' then ['\r', '\n'] else [c]

namespace StreamWriter

/-- `StreamWriter.feed_data` (embed_shell.py:200-202) on the telnet path:
the text forwarded to the underlying stream for a given written text. -/
def feed_data (s : String) : String :=
  String.mk (replaceLFwithCRLF s.data)

end StreamWriter

/-- A Python exception observable from the scheduler facade. -/
inductive PyErr where
  /-- `raise NotImplementedError` (embed_shell.py:183,186). -/
  | notImplementedError
deriving DecidableEq

/-- A call received by the real (host) event loop, in the order received. -/
inductive HostCall where
  | runInExecutor (args : List Nat)
  | callFromExecutor (args : List Nat)
  | stopCall
  | closeCall
deriving DecidableEq

/-- Modelled state of the host scheduler wrapped by `UnstopableEventLoop`:
the calls it has received so far, and whether it has been stopped or
closed. -/
structure HostLoop where
  received : List HostCall
  stopped : Bool
  closed : Bool
deriving DecidableEq

/-- The real event loop's `run_in_executor`: the host records the call (and
would schedule the work).  Modelled from the wrapped loop's behaviour,
which is external to this module. -/
def host_run_in_executor (h : HostLoop) (args : List Nat) : HostLoop :=
  { h with received := h.received ++ [HostCall.runInExecutor args] }

/-- The real event loop's `call_from_executor`: the host records the call. -/
def host_call_from_executor (h : HostLoop) (args : List Nat) : HostLoop :=
  { h with received := h.received ++ [HostCall.callFromExecutor args] }

/-- The real event loop's `stop`: the host records the call and halts. -/
def host_stop (h : HostLoop) : HostLoop :=
  { h with received := h.received ++ [HostCall.stopCall], stopped := true }

/-- The real event loop's `close`: the host records the call and closes. -/
def host_close (h : HostLoop) : HostLoop :=
  { h with received := h.received ++ [HostCall.closeCall], closed := true }

namespace UnstopableEventLoop

/-- `UnstopableEventLoop.stop` (embed_shell.py:173-174): the body is only
the docstring `Ignore.` — nothing is forwarded to the wrapped loop. -/
def stop (h : HostLoop) : HostLoop := h

/-- `UnstopableEventLoop.close` (embed_shell.py:170-171): the body is only
the docstring `Ignore.` — nothing is forwarded to the wrapped loop. -/
def close (h : HostLoop) : HostLoop := h

/-- `UnstopableEventLoop.run_in_executor` (embed_shell.py:176-177):
forwarded unchanged to the wrapped loop. -/
def run_in_executor (h : HostLoop) (args : List Nat) : HostLoop :=
  host_run_in_executor h args

/-- `UnstopableEventLoop.call_from_executor` (embed_shell.py:179-180):
forwarded unchanged to the wrapped loop. -/
def call_from_executor (h : HostLoop) (args : List Nat) : HostLoop :=
  host_call_from_executor h args

/-- `UnstopableEventLoop.add_reader` (embed_shell.py:182-183): raises
`NotImplementedError` immediately; the wrapped loop is untouched. -/
def add_reader (h : HostLoop) (_fd _cb : Nat) : Except PyErr Unit × HostLoop :=
  (Except.error PyErr.notImplementedError, h)

/-- `UnstopableEventLoop.remove_reader` (embed_shell.py:185-186): raises
`NotImplementedError` immediately; the wrapped loop is untouched. -/
def remove_reader (h : HostLoop) (_fd : Nat) : Except PyErr Unit × HostLoop :=
  (Except.error PyErr.notImplementedError, h)

end UnstopableEventLoop

/-- A lifecycle call an embedded component can make on the facade. -/
inductive LifeOp where
  | stopOp
  | closeOp
deriving DecidableEq

/-- Apply one facade lifecycle call to the wrapped host loop. -/
def facadeLifecycle (op : LifeOp) (h : HostLoop) : HostLoop :=
  match op with
  | LifeOp.stopOp => UnstopableEventLoop.stop h
  | LifeOp.closeOp => UnstopableEventLoop.close h

/-- Apply a whole sequence of facade `stop`/`close` calls, in order. -/
def facadeLifecycleSeq (ops : List LifeOp) (h : HostLoop) : HostLoop :=
  ops.foldl (fun s op => facadeLifecycle op s) h

/-- Modelled from the spec: the registered commands of the `Demo` shell in
registration order — the order their declarations register them, `help`
being declared in `EmbedShell` (embed_shell.py:71) before `Demo` declares
`hello` (embed_shell.py:278).  To be compared with the order the code
actually lists commands in. -/
def demoRegistrationOrder : List String := ["help", "hello"]

/-- Claim C1 (code bug, failing input `run`): `run` is not a registered
command — `get_commands` and `help` both exclude it — yet dispatching the
line `run` does not return the `Command not found` response:
`_parse_command` matches the first token against every object member, so it
matches the `run` member and re-enters the read loop, which never returns a
response. -/
theorem c1_unregistered_token_bypasses_not_found :
    "run" ∉ (get_commands demoMembers).map Prod.fst ∧
    parse_command demoMembers "run" = DResult.blocks ∧
    parse_command demoMembers "run" ≠
      DResult.ok ("Command not found run" ++ help demoMembers []) := by
  decide

/-- Claim C2 (counterexample): dispatching `hello tutu` yields `tutu`
without the trailing newline the claim states. -/
theorem c2_hello_args_counterexample :
    parse_command demoMembers "hello tutu" = DResult.ok "tutu" ∧
    parse_command demoMembers "hello tutu" ≠ DResult.ok "tutu\n" := by
  decide

/-- Claim C2 (amended): `hello` returns `world` plus a newline when invoked
with zero arguments, and the arguments joined by single spaces with no
trailing newline when invoked with at least one argument; dispatching
`hello` yields `world` plus newline and dispatching `hello tutu` yields
`tutu`. -/
theorem c2_hello_amended :
    hello [] = "world\n" ∧
    (∀ args : List String, args ≠ [] → hello args = " ".intercalate args) ∧
    parse_command demoMembers "hello" = DResult.ok "world\n" ∧
    parse_command demoMembers "hello tutu" = DResult.ok "tutu" := by
  refine ⟨rfl, ?_, by decide, by decide⟩
  intro args h
  cases args with
  | nil => exact absurd rfl h
  | cons a t => rfl

/-- Claim C2 (witness): the amended theorem instantiated at the argument
list holding only `tutu`. -/
theorem c2_hello_amended_witness :
    (["tutu"] : List String) ≠ [] ∧ hello ["tutu"] = " ".intercalate ["tutu"] :=
  ⟨by decide, c2_hello_amended.2.1 ["tutu"] (by decide)⟩

/-- Claim C3 (counterexample): the help listing of the `Demo` shell does
not present the commands in registration order — `help` is declared before
`hello`, yet the listing shows `hello` first, because `inspect.getmembers`
sorts members alphabetically. -/
theorem c3_listing_order_counterexample :
    (get_commands demoMembers).map Prod.fst ≠ demoRegistrationOrder ∧
    help demoMembers [] ≠
      "Help:\nhelp: Show help\nhello: Hello world\n\nhelp command for details about a command\n" := by
  decide

/-- Claim C3 (amended): `help` with zero arguments returns `Help:` plus a
newline, then exactly one line per registered command — each appearing
exactly once, in alphabetical member-scan order, as the name followed by a
colon and the first docstring line — then the trailer directing the user to
`help command`. -/
theorem c3_listing_amended :
    help demoMembers [] =
      "Help:\nhello: Hello world\nhelp: Show help\n\nhelp command for details about a command\n" ∧
    (get_commands demoMembers).map Prod.fst = ["hello", "help"] ∧
    ((get_commands demoMembers).map Prod.fst).Nodup := by
  decide

/-- Helper for claim C4: when the single help argument names neither
`hello` nor `help`, no member of the `Demo` table passes the help filter
(the other generator functions are excluded by the underscore and `run`
checks, everything else by the generator-function check). -/
theorem help_filter_nil_of_no_match (a : String) (h1 : a ≠ "hello")
    (h2 : a ≠ "help") : demoMembers.filter (helpKeeps [a]) = [] := by
  have hhello : (("hello" : String) == a) = false :=
    beq_eq_false_iff_ne.mpr (Ne.symm h1)
  have hhelp : (("help" : String) == a) = false :=
    beq_eq_false_iff_ne.mpr (Ne.symm h2)
  have u1 : startsWithUnderscore "_parse_command" = true := rfl
  have u2 : startsWithUnderscore "hello" = false := rfl
  have u3 : startsWithUnderscore "help" = false := rfl
  have u4 : startsWithUnderscore "run" = false := rfl
  simp [demoMembers, plainMember, helpKeeps, u1, u2, u3, u4, hhello, hhelp]

/-- Claim C4 (counterexample): dispatching `help bogus` returns the empty
string, not the `Command not found` response that dispatching the unknown
command `bogus` returns. -/
theorem c4_help_unknown_arg_counterexample :
    parse_command demoMembers "help bogus" = DResult.ok "" ∧
    parse_command demoMembers "bogus" =
      DResult.ok ("Command not found bogus" ++ help demoMembers []) ∧
    parse_command demoMembers "help bogus" ≠ parse_command demoMembers "bogus" := by
  decide

/-- Claim C4 (amended): `help` invoked with one argument that matches no
registered command name returns the empty string — no header, no command
line, no trailer — rather than the `Command not found` response. -/
theorem c4_help_unknown_arg_amended :
    (∀ a : String, a ≠ "hello" → a ≠ "help" → help demoMembers [a] = "") ∧
    parse_command demoMembers "help bogus" = DResult.ok "" := by
  constructor
  · intro a h1 h2
    have hfil := help_filter_nil_of_no_match a h1 h2
    simp [help, hfil, String.join]
  · decide

/-- Claim C4 (witness): the amended theorem instantiated at the unknown
argument `bogus`. -/
theorem c4_help_unknown_arg_amended_witness :
    ("bogus" : String) ≠ "hello" ∧ ("bogus" : String) ≠ "help" ∧
    help demoMembers ["bogus"] = "" :=
  ⟨by decide, by decide,
    c4_help_unknown_arg_amended.1 "bogus" (by decide) (by decide)⟩

/-- Claim C5 (code bug, failing input: reader at end-of-stream): the run
loop never completes gracefully when `readline` reports end-of-stream.
With no welcome message and no pending input, every iteration budget `n` is
fully consumed: each iteration writes the prompt, reads the empty string
the closed stream returns, dispatches it, and writes the
`Command not found` response — the loop iterates again instead of
stopping. -/
theorem c5_run_loop_never_completes_at_eof :
    ∀ n : Nat,
      run demoMembers none n [] = runLoop demoMembers n [] ∧
      runLoop demoMembers n [] =
        RunOutcome.outOfFuel
          (List.flatten (List.replicate n [promptText, notFoundEmpty])) [] := by
  intro n
  refine ⟨rfl, ?_⟩
  induction n with
  | zero => rfl
  | succ k ih =>
    have hp : parse_command demoMembers (pyStripNL "") =
        DResult.ok notFoundEmpty := by decide
    simp only [runLoop, readline, hp, prependOut, ih, List.replicate_succ,
      List.flatten_cons, List.cons_append, List.nil_append]

/-- Claim C6: any sequence of `stop` and `close` calls through the facade
leaves the wrapped host loop exactly as it was — nothing is forwarded and
nothing changes — while `run_in_executor` and `call_from_executor` are
forwarded to the host loop unchanged. -/
theorem c6_lifecycle_ignored_executor_forwarded :
    (∀ (ops : List LifeOp) (h : HostLoop), facadeLifecycleSeq ops h = h) ∧
    (∀ (h : HostLoop) (args : List Nat),
      UnstopableEventLoop.run_in_executor h args = host_run_in_executor h args ∧
      (UnstopableEventLoop.run_in_executor h args).received =
        h.received ++ [HostCall.runInExecutor args]) ∧
    (∀ (h : HostLoop) (args : List Nat),
      UnstopableEventLoop.call_from_executor h args =
        host_call_from_executor h args ∧
      (UnstopableEventLoop.call_from_executor h args).received =
        h.received ++ [HostCall.callFromExecutor args]) := by
  refine ⟨?_, fun h args => ⟨rfl, rfl⟩, fun h args => ⟨rfl, rfl⟩⟩
  intro ops h
  induction ops with
  | nil => rfl
  | cons op rest ih => cases op <;> exact ih

/-- Claim C7: every `add_reader` and `remove_reader` call on the facade,
for any file descriptor and callback, fails immediately with
`NotImplementedError` and leaves the wrapped host loop untouched — neither
call ever succeeds or is forwarded. -/
theorem c7_reader_registration_raises :
    ∀ (h : HostLoop) (fd cb : Nat),
      UnstopableEventLoop.add_reader h fd cb =
        (Except.error PyErr.notImplementedError, h) ∧
      UnstopableEventLoop.remove_reader h fd =
        (Except.error PyErr.notImplementedError, h) ∧
      (UnstopableEventLoop.add_reader h fd cb).2.received = h.received ∧
      (UnstopableEventLoop.remove_reader h fd).2.received = h.received :=
  fun _ _ _ => ⟨rfl, rfl, rfl, rfl⟩

/-- Claim C8: on the telnet path `feed_data` rewrites every newline in the
written text to carriage return plus newline and keeps every other
character in place; in particular the `hello` output `world` plus newline
is transmitted as `world` plus carriage return plus newline. -/
theorem c8_feed_data_rewrites_newlines :
    (∀ s : String, (StreamWriter.feed_data s).data = s.data.flatMap expandLF) ∧
    StreamWriter.feed_data (hello []) = "world\r\n" := by
  constructor
  · intro s
    show replaceLFwithCRLF s.data = s.data.flatMap expandLF
    induction s.data with
    | nil => rfl
    | cons c cs ih =>
      by_cases hc : c = '\n' <;>
        simp [replaceLFwithCRLF, expandLF, List.flatMap_cons, hc, ih]
  · decide

/-- Claim C9 (code bug, failing input `prompt`): dispatch is not total —
splitting the line never goes out of range (the first token always exists),
but the line `prompt` matches the `prompt` property member, whose value is
the prompt string, and calling that value raises a `TypeError` instead of
returning a response. -/
theorem c9_dispatch_raises_on_property_token :
    pySplit "prompt" = ["prompt"] ∧
    parse_command demoMembers "prompt" = DResult.raises := by
  decide

/-- Claim C10: dispatching the empty line does not fail — splitting the
empty string on spaces yields the single empty token, which matches no
member, so the response is exactly `Command not found ` with the empty name
followed by the zero-argument help listing. -/
theorem c10_empty_line_dispatch :
    pySplit "" = [""] ∧
    parse_command demoMembers "" =
      DResult.ok ("Command not found " ++ help demoMembers []) := by
  decide

end EmbedShellModel
